import Mathlib

/-!
Shallow embedding of the mufetch terminal display pipeline
(`pkg/display/display.go`, `cmd/search.go`, `cmd/root.go`) together with
theorems about its rendering, layout and formatting behaviour.

Display lines are modelled as Lean `String`s (Go strings of text);
the genre truncation rule, which operates on raw Go bytes, is additionally
modelled at the byte level (`List Nat`).  Network effects (image download,
catalog fetches) are modelled by passing the fetch result explicitly as an
`Option`: `none` is any download/decode/HTTP error, `some` a success.
-/

namespace Mufetch

/-! ## ANSI color constants (display.go lines 435-445) -/

def ColorReset  : String := "\x1b[0m"
def ColorRed    : String := "\x1b[31m"
def ColorGreen  : String := "\x1b[32m"
def ColorYellow : String := "\x1b[33m"
def ColorBlue   : String := "\x1b[34m"
def ColorPurple : String := "\x1b[35m"
def ColorCyan   : String := "\x1b[36m"
def ColorWhite  : String := "\x1b[37m"
def ColorBold   : String := "\x1b[1m"

/-! ## Visible width: characters remaining once ANSI CSI escape sequences
(`ESC [ ... m`, the only kind the renderer emits) are removed. -/

def stripAnsiAux : Bool → List Char → List Char
  | _, [] => []
  | true, c :: rest =>
      if c = 'm' then stripAnsiAux false rest else stripAnsiAux true rest
  | false, c :: rest =>
      if c = '\x1b' then stripAnsiAux true rest else c :: stripAnsiAux false rest

def stripAnsi (l : List Char) : List Char := stripAnsiAux false l

def visibleLen (s : String) : Nat := (stripAnsi s.data).length

/-! ## Decimal formatting of naturals, as Go `fmt.Sprintf("%d", n)` emits it. -/

def digitChar : Nat → Char
  | 0 => '0' | 1 => '1' | 2 => '2' | 3 => '3' | 4 => '4'
  | 5 => '5' | 6 => '6' | 7 => '7' | 8 => '8' | _ => '9'

def natDecAux : Nat → Nat → List Char
  | _, 0 => []
  | n, fuel + 1 =>
      if n < 10 then [digitChar n]
      else natDecAux (n / 10) fuel ++ [digitChar (n % 10)]

def natDec (n : Nat) : List Char := natDecAux n (n + 1)

def natDecStr (n : Nat) : String := ⟨natDec n⟩

/-! ## Image renderer (display.go lines 447-535)

A downloaded-and-decoded image, after `imaging.Resize(img, r.width, r.height,
imaging.Lanczos)`, is an `r.width × r.height` pixel grid; the Lanczos kernel
itself is abstracted as the pixel map of the resized image: `px x y` is the
8-bit `(r, g, b)` triple obtained from `resized.At(x, y).RGBA()` shifted
right by 8, exactly as lines 499-505 compute it. -/

def Pixel := Nat × Nat × Nat

structure ImageRenderer where
  width : Nat
  height : Nat

/-- `NewImageRenderer` (display.go lines 454-459): square grid. -/
def NewImageRenderer (size : Nat) : ImageRenderer := ⟨size, size⟩

/-- One colored cell, `fmt.Sprintf("\033[48;2;%d;%d;%dm  \033[0m", r, g, b)`
(display.go line 508). -/
def cellChars (r g b : Nat) : List Char :=
  '\x1b' :: '[' :: '4' :: '8' :: ';' :: '2' :: ';' ::
    (natDec r ++ ';' :: natDec g ++ ';' :: natDec b ++
      'm' :: ' ' :: ' ' :: '\x1b' :: '[' :: '0' :: 'm' :: [])

/-- One output row: a leading padding space then `width` cells
(display.go lines 494-510). -/
def rowChars (width : Nat) (pxRow : Nat → Nat × Nat × Nat) : List Char :=
  ' ' :: ((List.range width).map
    (fun x => cellChars (pxRow x).1 (pxRow x).2.1 (pxRow x).2.2)).flatten

/-- `getBlockArtLines` (display.go lines 488-514): one row per `y` in the
resized image's bounds. -/
def ImageRenderer.getBlockArtLines (r : ImageRenderer)
    (px : Nat → Nat → Nat × Nat × Nat) : List String :=
  (List.range r.height).map (fun y => ⟨rowChars r.width (fun x => px x y)⟩)

/-- The eight bordered placeholder content lines (display.go lines 518-527). -/
def placeholderContent : List String :=
  [ " " ++ ColorWhite ++ "┌───────────────────────────────┐" ++ ColorReset,
    " " ++ ColorWhite ++ "│                               │" ++ ColorReset,
    " " ++ ColorWhite ++ "│                               │" ++ ColorReset,
    " " ++ ColorWhite ++ "│           NO IMAGE            │" ++ ColorReset,
    " " ++ ColorWhite ++ "│           AVAILABLE           │" ++ ColorReset,
    " " ++ ColorWhite ++ "│                               │" ++ ColorReset,
    " " ++ ColorWhite ++ "│                               │" ++ ColorReset,
    " " ++ ColorWhite ++ "└───────────────────────────────┘" ++ ColorReset ]

def blankLine31 : String := ⟨List.replicate 31 ' '⟩

/-- `getPlaceholderLines` (display.go lines 517-535): the 8 content lines,
then `strings.Repeat(" ", 31)` appended while fewer than 20 lines. -/
def ImageRenderer.getPlaceholderLines (_r : ImageRenderer) : List String :=
  placeholderContent ++
    List.replicate (20 - placeholderContent.length) blankLine31

/-- `RenderImageLines` (display.go lines 462-473).  `fetched` is the result
of `downloadImage`: `none` on any network or decode error. -/
def ImageRenderer.RenderImageLines (r : ImageRenderer) (imageURL : String)
    (fetched : Option (Nat → Nat → Nat × Nat × Nat)) : List String :=
  if imageURL = "" then r.getPlaceholderLines
  else
    match fetched with
    | none => r.getPlaceholderLines
    | some px => r.getBlockArtLines px

/-! ## Clickable links and info-line formatting (display.go lines 537-540, 819-834) -/

/-- `createClickableLink` (display.go lines 538-540). -/
def createClickableLink (url text : String) : String :=
  "\x1b]8;;" ++ url ++ "\x1b\\" ++ text ++ "\x1b]8;;\x1b\\"

/-- `fmt.Sprintf("%s%s%s", color, s, ColorReset)`, the color wrapper used
for top-track lines and bottom links. -/
def colorWrap (color s : String) : String :=
  ⟨color.data ++ (s.data ++ ColorReset.data)⟩

/-- Padding width of `formatInfoLine` (display.go lines 821-828):
`12 - len(label) + 2`, floored at 2. -/
def infoPadding (label : String) : Nat :=
  let p : Int := 12 - (label.length : Int) + 2
  if p < 2 then 2 else p.toNat

/-- `formatInfoLine` (display.go lines 820-834). -/
def formatInfoLine (label value color : String) : String :=
  ⟨(ColorBold ++ label ++ ColorReset).data ++
    List.replicate (infoPadding label) ' ' ++
    color.data ++ value.data ++ ColorReset.data⟩

/-! ## Scalar formatters (display.go lines 836-907) -/

/-- Ordinal suffix computation (display.go lines 856-871). -/
def ordinalSuffix (day : Nat) : String :=
  if 11 ≤ day ∧ day ≤ 13 then "th"
  else
    match day % 10 with
    | 1 => "st"
    | 2 => "nd"
    | 3 => "rd"
    | _ => "th"

/-- `t.Format("Jan")` for a parsed month 1-12. -/
def monthAbbrev : Nat → String
  | 1 => "Jan" | 2 => "Feb" | 3 => "Mar" | 4 => "Apr"
  | 5 => "May" | 6 => "Jun" | 7 => "Jul" | 8 => "Aug"
  | 9 => "Sep" | 10 => "Oct" | 11 => "Nov" | _ => "Dec"

def isLeapYear (y : Nat) : Bool := y % 4 = 0 ∧ (y % 100 ≠ 0 ∨ y % 400 = 0)

/-- Days in a month, as Go `time`'s `daysIn` validates them. -/
def daysIn (y m : Nat) : Nat :=
  if m = 2 then (if isLeapYear y then 29 else 28)
  else if m = 4 ∨ m = 6 ∨ m = 9 ∨ m = 11 then 30
  else 31

def digitVal (c : Char) : Nat := c.toNat - 48

/-- Go `time.Parse("2006-01-02", s)`: a 4-digit year (first byte must be a
digit, the field is read with `atoi` so all four must be digits), `-`,
a fixed 2-digit month, `-`, a fixed 2-digit day, nothing trailing, with the
month in 1-12 and the day within the month's length. -/
def parseYMD (s : String) : Option (Nat × Nat × Nat) :=
  match s.data with
  | [y1, y2, y3, y4, h1, m1, m2, h2, d1, d2] =>
    if y1.isDigit ∧ y2.isDigit ∧ y3.isDigit ∧ y4.isDigit ∧
        h1 = '-' ∧ m1.isDigit ∧ m2.isDigit ∧ h2 = '-' ∧
        d1.isDigit ∧ d2.isDigit then
      let y := 1000 * digitVal y1 + 100 * digitVal y2 + 10 * digitVal y3 + digitVal y4
      let m := 10 * digitVal m1 + digitVal m2
      let d := 10 * digitVal d1 + digitVal d2
      if 1 ≤ m ∧ m ≤ 12 ∧ 1 ≤ d ∧ d ≤ daysIn y m then some (y, m, d) else none
    else none
  | _ => none

/-- Go `time.Parse("2006", s)`: exactly four digit characters. -/
def parseYearOnly (s : String) : Option Nat :=
  match s.data with
  | [y1, y2, y3, y4] =>
    if y1.isDigit ∧ y2.isDigit ∧ y3.isDigit ∧ y4.isDigit then
      some (1000 * digitVal y1 + 100 * digitVal y2 + 10 * digitVal y3 + digitVal y4)
    else none
  | _ => none

/-- `t.Format("2006")`: the year zero-padded to four digits.  A year parsed
from four digit characters is below 10000, so this reprints those digits. -/
def formatYear4 (y : Nat) : String :=
  ⟨List.replicate (4 - (natDec y).length) '0' ++ natDec y⟩

/-- `formatOrdinalDate` (display.go lines 837-874). -/
def formatOrdinalDate (dateStr : String) : String :=
  if dateStr = "" then "N/A"
  else
    match parseYMD dateStr with
    | some (y, m, d) =>
        natDecStr d ++ ordinalSuffix d ++ " " ++ monthAbbrev m ++ " " ++ natDecStr y
    | none =>
        match parseYearOnly dateStr with
        | some y => formatYear4 y
        | none => dateStr

/-- `formatDuration` (display.go lines 877-881), on a whole number of
milliseconds: `int(d.Minutes())` truncates to whole minutes and
`int(d.Seconds()) % 60` to the leftover seconds. -/
def formatDuration (ms : Nat) : String :=
  let seconds := (ms / 1000) % 60
  natDecStr (ms / 60000) ++ ":" ++
    (if seconds < 10 then "0" else "") ++ natDecStr seconds

/-- `formatString` (display.go lines 902-907). -/
def formatString (s : String) : String := if s = "" then "N/A" else s

/-! ## Genre truncation at the byte level (display.go lines 583-589, 642-648)

Go `len` and slicing act on bytes, so the shared genre-truncation fragment
`if len(g) > 50 { g = g[:47] + "..." }` is modelled on byte lists. -/

/-- `strings.Join(elems, sep)`. -/
def goJoin (sep : List Nat) : List (List Nat) → List Nat
  | [] => []
  | [g] => g
  | g :: gs => g ++ sep ++ goJoin sep gs

/-- The bytes of `", "`. -/
def commaSepBytes : List Nat := [44, 32]

/-- The bytes of `"..."`. -/
def ellipsisBytes : List Nat := [46, 46, 46]

/-- The displayed genre value: the comma-joined genre list, hard-truncated
to its first 47 bytes plus `"..."` when the join exceeds 50 bytes. -/
def genreDisplayBytes (genres : List (List Nat)) : List Nat :=
  let g := goJoin commaSepBytes genres
  if 50 < g.length then g.take 47 ++ ellipsisBytes else g

/-- The same truncation fragment at the text level, used when assembling
info panels. -/
def genreValue (genres : List String) : String :=
  let g := String.intercalate ", " genres
  if 50 < g.length then ⟨g.data.take 47⟩ ++ "..." else g

/-! ## Album info panel (display.go lines 602-676)

The catalog data a `DisplayAlbum` call consumes, and the `client.GetArtist`
supplemental fetch, passed as an explicit function (`none` = fetch error). -/

structure ArtistData where
  id : String
  name : String
  spotifyURL : String
  genres : List String

structure AlbumTrack where
  name : String
  duration : Nat
  spotifyURL : String

structure AlbumData where
  name : String
  artists : List ArtistData
  albumType : String
  releaseDate : String
  totalTracks : Nat
  popularity : Nat
  genres : List String
  label : String
  tracks : List AlbumTrack

/-- The genre fallback (display.go lines 624-630): the album's own genres,
replaced by the first artist's genres when the album has none, the fetch
succeeds, and at least one artist exists. -/
def albumEffectiveGenres (album : AlbumData)
    (fetchArtist : String → Option ArtistData) : List String :=
  if album.genres.length = 0 ∧ 0 < album.artists.length then
    match album.artists.head? with
    | some a0 =>
        match fetchArtist a0.id with
        | some artist => artist.genres
        | none => album.genres
    | none => album.genres
  else album.genres

/-- The `infoLines` assembled by `DisplayAlbum` (display.go lines 612-666). -/
def displayAlbumInfoLines (album : AlbumData)
    (fetchArtist : String → Option ArtistData) : List String :=
  let artistNames := album.artists.map (fun a => createClickableLink a.spotifyURL a.name)
  let totalDuration := (album.tracks.map (fun t => t.duration)).sum
  let genres := albumEffectiveGenres album fetchArtist
  let base :=
    [ formatInfoLine "Name" album.name ColorGreen,
      formatInfoLine "Artist" (String.intercalate ", " artistNames) ColorYellow,
      formatInfoLine "Type" album.albumType ColorBlue,
      formatInfoLine "Released" (formatOrdinalDate album.releaseDate) ColorCyan,
      formatInfoLine "Tracks" (natDecStr album.totalTracks) ColorPurple,
      formatInfoLine "Duration" (formatDuration totalDuration) ColorWhite,
      formatInfoLine "Popularity" (natDecStr album.popularity ++ "%") ColorPurple ]
  let genrePart :=
    if 0 < genres.length then [formatInfoLine "Genres" (genreValue genres) ColorRed] else []
  let labelPart :=
    if 0 < album.label.length then [formatInfoLine "Label" (formatString album.label) ColorWhite] else []
  let topPart :=
    if 0 < album.tracks.length then
      "" :: (ColorBold ++ "Top Tracks" ++ ColorReset) ::
        (album.tracks.take 5).map
          (fun t => colorWrap ColorGreen (createClickableLink t.spotifyURL t.name))
    else []
  base ++ genrePart ++ labelPart ++ topPart

/-- The first ten characters of every `formatInfoLine "Genres" _ _` line. -/
def genresLineHead : List Char := ('\x1b' :: '[' :: '1' :: 'm' :: "Genres".data)

/-- Whether a panel line is the Genres info line: no other line the album
panel builds starts with these ten characters. -/
def isGenresLine (s : String) : Bool := s.data.take 10 == genresLineHead

/-- The Genres line of a panel, when present. -/
def findGenresLine (panel : List String) : Option String := panel.find? isGenresLine

/-! ## Side-by-side composition (display.go lines 747-817)

The function prints; here it returns the printed lines in order.  Go slice
indexing with a negative index panics, which the model surfaces as `none`
(the loop bounds make every non-negative index in the code in-range). -/

def gapStr : String := "   "

def spaces46 : String := ⟨List.replicate 46 ' '⟩

/-- The shared target count (display.go lines 748-754):
`max(len(imageLines), len(infoLines)) - 2`, as a Go `int`. -/
def sideBySideTarget (imageLines infoLines : List String) : Int :=
  (↑(max imageLines.length infoLines.length) : Int) - 2

/-- The info-panel padding loop (display.go lines 755-757): append `""`
while fewer than `target` lines. -/
def padInfoLines (infoLines : List String) (target : Nat) : List String :=
  infoLines ++ List.replicate (target - infoLines.length) ""

/-- The main side-by-side loop (display.go lines 760-766). -/
def sideBySideMain (imageLines info : List String) (target : Nat) : List String :=
  (List.range target).map (fun i =>
    (if i < imageLines.length then imageLines.getD i "" else spaces46) ++
      gapStr ++ info.getD i "")

def isPrefixB : List Char → List Char → Bool
  | [], _ => true
  | _ :: _, [] => false
  | a :: as, b :: bs => a == b && isPrefixB as bs

def isInfixB (p : List Char) : List Char → Bool
  | [] => isPrefixB p []
  | c :: rest => isPrefixB p (c :: rest) || isInfixB p rest

/-- `strings.Contains(strings.ToLower(link), "spotify")` (display.go line 780).
`String.toLower` lowercases ASCII letters, which covers the marker. -/
def containsSpotify (s : String) : Bool := isInfixB "spotify".data s.toLower.data

/-- The link classification loop (display.go lines 778-785): the last link
containing "spotify" (case-insensitively) wins the first slot, every other
link the second. -/
def classifyLinks (links : List String) : String × String :=
  links.foldl
    (fun p link => if containsSpotify link then (link, p.2) else (p.1, link))
    ("", "")

/-- Link-line assembly with fallbacks (display.go lines 787-803). -/
def linkLineOf (links : List String) : String :=
  let c := classifyLinks links
  let spotifyLink := if c.1 = "" ∧ 0 < links.length then links.getD 0 "" else c.1
  let imageLink := if c.2 = "" ∧ 1 < links.length then links.getD 1 "" else c.2
  if spotifyLink ≠ "" ∧ imageLink ≠ "" then spotifyLink ++ gapStr ++ imageLink
  else if spotifyLink ≠ "" then spotifyLink
  else imageLink

/-- A Go loop `for i := start; i < len(imageLines); i++` printing
`imageLines[i] + "   "`; a negative start index panics on its first access
(the loop guard `i < len` always holds then). -/
def goTrailing (imageLines : List String) (start : Int) : Option (List String) :=
  if start < 0 then
    if start < (imageLines.length : Int) then none else some []
  else
    some ((List.range (imageLines.length - start.toNat)).map
      (fun k => imageLines.getD (start.toNat + k) "" ++ gapStr))

/-- The image line printed beside the link row (display.go lines 770-775):
`imageLines[targetLines]` when `targetLines < len(imageLines)` (a panic,
hence `none`, when `targetLines` is negative), else 46 spaces. -/
def linkRowImage (imageLines : List String) (target : Int) : Option String :=
  if target < (imageLines.length : Int) then
    if 0 ≤ target then some (imageLines.getD target.toNat "") else none
  else some spaces46

/-- `displaySideBySideWithLinks` (display.go lines 747-817), as the list of
printed lines; `none` models a Go index-out-of-range panic. -/
def displaySideBySideWithLinks (imageLines infoLines links : List String) :
    Option (List String) :=
  if 0 < links.length then
    match linkRowImage imageLines (sideBySideTarget imageLines infoLines),
        goTrailing imageLines (sideBySideTarget imageLines infoLines + 1) with
    | some il, some tr =>
        some (sideBySideMain imageLines
            (padInfoLines infoLines (sideBySideTarget imageLines infoLines).toNat)
            (sideBySideTarget imageLines infoLines).toNat ++
          ([il ++ gapStr ++ linkLineOf links] ++ tr))
    | _, _ => none
  else
    match goTrailing imageLines (sideBySideTarget imageLines infoLines) with
    | none => none
    | some tr =>
        some (sideBySideMain imageLines
            (padInfoLines infoLines (sideBySideTarget imageLines infoLines).toNat)
            (sideBySideTarget imageLines infoLines).toNat ++ tr)

/-! ## Search command (root.go lines 99-213)

`os.Exit` terminates the process at once: deferred functions do not run.
The model records the terminal writes of one `search` execution in order,
with explicit exit events.  Outputs of the display stage (which never exits)
are abstracted as `displayOut`. -/

inductive TermEvent where
  | out (s : String)
  | exited (code : Nat)
deriving DecidableEq

def hideCursorSeq : String := "\x1b[?25l"
def showCursorSeq : String := "\x1b[?25h"
def cursorFixSeq : String := "\x1b[F\x1b[K\n"

/-- The image-size clamp (root.go lines 129-135). -/
def validateImageSize (n : Int) : Int :=
  let n1 := if n < 15 then (15 : Int) else n
  if n1 > 35 then 35 else n1

/-- The terminal writes of one run of the `search` command's `Run` closure
(root.go lines 104-146) together with `searchSpecific` (lines 177-213).
`searchOk` is whether `client.Search` returned without error on the
type-specific path (`searchAuto` never exits, so on the auto path the body
runs to completion).  The deferred `fmt.Print("\033[?25h")` runs only when
the closure returns; `os.Exit(1)` skips it. -/
def searchCmdEvents (hasCreds configOk isAuto searchOk : Bool)
    (displayOut : List String) (failMsg : String) : List TermEvent :=
  if hasCreds = false then
    [TermEvent.out "No Spotify credentials found!\n",
     TermEvent.out "Run 'mufetch auth' to set up your API credentials.\n",
     TermEvent.exited 1]
  else if configOk = false then
    [TermEvent.out "Failed to load config\n", TermEvent.exited 1]
  else if isAuto = false ∧ searchOk = false then
    [TermEvent.out hideCursorSeq, TermEvent.out "\n",
     TermEvent.out failMsg, TermEvent.exited 1]
  else
    TermEvent.out hideCursorSeq :: TermEvent.out "\n" ::
      (displayOut.map TermEvent.out ++
        [TermEvent.out cursorFixSeq, TermEvent.out showCursorSeq])

/-- The side-by-side property when the image is at least as tall as the
info panel: the padding target is the image-line count minus 2, the panel
is blank-padded up to that many lines, and the printed line at each index
`i < H - 2` is the image line, the gap, and the (padded) info line. -/
def PadsToImageHeight (imageLines infoLines links : List String) : Prop :=
  sideBySideTarget imageLines infoLines = (imageLines.length : Int) - 2 ∧
  (padInfoLines infoLines (imageLines.length - 2)).length =
    max (imageLines.length - 2) infoLines.length ∧
  ∃ out, displaySideBySideWithLinks imageLines infoLines links = some out ∧
    ∀ i, i < imageLines.length - 2 →
      out[i]? = some (imageLines.getD i "" ++ gapStr ++
        (padInfoLines infoLines (imageLines.length - 2)).getD i "")

/-- The side-by-side property when the info panel is at least as tall as
the image: the composition prints, exactly once each, the first
`len(infoLines) - 2` info lines, and its entire output is unchanged if the
last two info lines are replaced — they are silently never displayed. -/
def InfoDominantSpec (imageLines infoLines links : List String) : Prop :=
  ∃ out, displaySideBySideWithLinks imageLines infoLines links = some out ∧
    (∀ i, i < infoLines.length - 2 →
      out[i]? = some ((if i < imageLines.length then imageLines.getD i "" else spaces46) ++
        gapStr ++ infoLines.getD i "")) ∧
    (∀ infoLines2, infoLines2.length = infoLines.length →
      infoLines2.take (infoLines.length - 2) = infoLines.take (infoLines.length - 2) →
      displaySideBySideWithLinks imageLines infoLines2 links =
        displaySideBySideWithLinks imageLines infoLines links)

/-! ## Helper lemmas: visible width of block-art rows -/

theorem digitChar_ne (d : Nat) (hd : d < 10) :
    digitChar d ≠ 'm' ∧ digitChar d ≠ '\x1b' := by
  interval_cases d <;> exact ⟨by decide, by decide⟩

theorem natDecAux_ne (fuel : Nat) :
    ∀ n, ∀ c ∈ natDecAux n fuel, c ≠ 'm' ∧ c ≠ '\x1b' := by
  induction fuel with
  | zero => intro n c hc; exact absurd hc (List.not_mem_nil c)
  | succ fuel ih =>
    intro n c hc
    rw [natDecAux] at hc
    split at hc
    · simp only [List.mem_singleton] at hc
      subst hc
      exact digitChar_ne n (by omega)
    · rcases List.mem_append.mp hc with h | h
      · exact ih (n / 10) c h
      · simp only [List.mem_singleton] at h
        subst h
        exact digitChar_ne (n % 10) (Nat.mod_lt _ (by omega))

theorem natDec_ne (n : Nat) : ∀ c ∈ natDec n, c ≠ 'm' ∧ c ≠ '\x1b' :=
  natDecAux_ne (n + 1) n

theorem stripAux_esc (t : List Char) :
    stripAnsiAux false ('\x1b' :: t) = stripAnsiAux true t := by
  simp [stripAnsiAux]

theorem stripAux_keep (c : Char) (t : List Char) (h : c ≠ '\x1b') :
    stripAnsiAux false (c :: t) = c :: stripAnsiAux false t := by
  simp [stripAnsiAux, h]

theorem stripAux_eat (c : Char) (t : List Char) (h : c ≠ 'm') :
    stripAnsiAux true (c :: t) = stripAnsiAux true t := by
  simp [stripAnsiAux, h]

theorem stripAux_m (t : List Char) :
    stripAnsiAux true ('m' :: t) = stripAnsiAux false t := by
  simp [stripAnsiAux]

theorem stripAux_true_append (l rest : List Char) (h : ∀ c ∈ l, c ≠ 'm') :
    stripAnsiAux true (l ++ rest) = stripAnsiAux true rest := by
  induction l with
  | nil => rfl
  | cons c t ih =>
    rw [List.cons_append, stripAux_eat c _ (h c (List.mem_cons_self c t)),
      ih (fun x hx => h x (List.mem_cons_of_mem c hx))]

theorem strip_cell (r g b : Nat) (rest : List Char) :
    stripAnsiAux false (cellChars r g b ++ rest) = ' ' :: ' ' :: stripAnsiAux false rest := by
  simp only [cellChars, List.cons_append, List.append_assoc, List.nil_append]
  rw [stripAux_esc, stripAux_eat '[' _ (by decide), stripAux_eat '4' _ (by decide),
    stripAux_eat '8' _ (by decide), stripAux_eat ';' _ (by decide),
    stripAux_eat '2' _ (by decide), stripAux_eat ';' _ (by decide),
    stripAux_true_append _ _ (fun c hc => (natDec_ne r c hc).1),
    stripAux_eat ';' _ (by decide),
    stripAux_true_append _ _ (fun c hc => (natDec_ne g c hc).1),
    stripAux_eat ';' _ (by decide),
    stripAux_true_append _ _ (fun c hc => (natDec_ne b c hc).1),
    stripAux_m, stripAux_keep ' ' _ (by decide),
    stripAux_keep ' ' _ (by decide), stripAux_esc, stripAux_eat '[' _ (by decide),
    stripAux_eat '0' _ (by decide), stripAux_m]

theorem strip_cells_flatten (L : List (List Char))
    (h : ∀ x ∈ L, ∃ r g b, x = cellChars r g b) :
    stripAnsiAux false L.flatten = List.replicate (2 * L.length) ' ' := by
  induction L with
  | nil => rfl
  | cons x xs ih =>
    obtain ⟨r, g, b, hx⟩ := h x (List.mem_cons_self x xs)
    subst hx
    rw [List.flatten_cons, strip_cell, ih (fun y hy => h y (List.mem_cons_of_mem _ hy))]
    have h2 : 2 * ((cellChars r g b :: xs).length) = 2 * xs.length + 1 + 1 := by
      simp [List.length_cons]; ring
    rw [h2, List.replicate_succ, List.replicate_succ]

theorem strip_row (w : Nat) (pxRow : Nat → Nat × Nat × Nat) :
    stripAnsi (rowChars w pxRow) = List.replicate (2 * w + 1) ' ' := by
  unfold stripAnsi rowChars
  rw [stripAux_keep ' ' _ (by decide),
    strip_cells_flatten _ (by
      intro x hx
      simp only [List.mem_map] at hx
      obtain ⟨i, _, hi⟩ := hx
      exact ⟨_, _, _, hi.symm⟩)]
  simp [List.replicate_succ]

/-- C1: for every grid size `S` in `[15,35]` and every successfully
downloaded and decoded image, `RenderImageLines` returns exactly `S` lines,
and each line's visible characters (ANSI escapes stripped) are one leading
padding space plus `S` two-character cells: `1 + 2*S` characters,
identical across all lines. -/
theorem render_success_grid (S : Nat) (px : Nat → Nat → Nat × Nat × Nat)
    (url : String) (_h15 : 15 ≤ S) (_h35 : S ≤ 35) (hurl : url ≠ "") :
    ((NewImageRenderer S).RenderImageLines url (some px)).length = S ∧
    ∀ line ∈ (NewImageRenderer S).RenderImageLines url (some px),
      stripAnsi line.data = List.replicate (1 + 2 * S) ' ' ∧
        visibleLen line = 1 + 2 * S := by
  rw [ImageRenderer.RenderImageLines, if_neg hurl]
  constructor
  · simp [ImageRenderer.getBlockArtLines, NewImageRenderer]
  · intro line hline
    simp only [ImageRenderer.getBlockArtLines, NewImageRenderer, List.mem_map] at hline
    obtain ⟨y, _, hy⟩ := hline
    subst hy
    have hs : stripAnsi (rowChars S fun x => px x y) = List.replicate (1 + 2 * S) ' ' := by
      rw [strip_row, Nat.add_comm]
    exact ⟨hs, by rw [visibleLen, String.data, hs, List.length_replicate]⟩

theorem render_success_grid_witness :
    ((NewImageRenderer 20).RenderImageLines "x" (some fun _ _ => (0, 0, 0))).length = 20 :=
  (render_success_grid 20 (fun _ _ => (0, 0, 0)) "x" (by decide) (by decide) (by decide)).1

/-- C3: for every requested grid size, when the image URL is empty or the
download/decode fails, the renderer returns the placeholder: exactly 8
content lines padded with blank lines to 20 lines in total, a count
independent of the requested size. -/
theorem render_failure_placeholder (size : Nat) (url : String)
    (fetched : Option (Nat → Nat → Nat × Nat × Nat))
    (h : url = "" ∨ fetched = none) :
    (NewImageRenderer size).RenderImageLines url fetched =
      (NewImageRenderer size).getPlaceholderLines ∧
    (NewImageRenderer size).getPlaceholderLines.length = 20 ∧
    placeholderContent.length = 8 ∧
    (NewImageRenderer size).getPlaceholderLines.take 8 = placeholderContent ∧
    (NewImageRenderer size).getPlaceholderLines.drop 8 = List.replicate 12 blankLine31 := by
  refine ⟨?_,
    (by decide :
      (placeholderContent ++ List.replicate (20 - placeholderContent.length) blankLine31).length = 20),
    by decide,
    (by decide :
      (placeholderContent ++ List.replicate (20 - placeholderContent.length) blankLine31).take 8 =
        placeholderContent),
    (by decide :
      (placeholderContent ++ List.replicate (20 - placeholderContent.length) blankLine31).drop 8 =
        List.replicate 12 blankLine31)⟩
  rw [ImageRenderer.RenderImageLines.eq_def]
  rcases h with h | h
  · rw [if_pos h]
  · subst h
    split
    · rfl
    · rfl

theorem render_failure_placeholder_witness :
    (NewImageRenderer 17).RenderImageLines "" (some fun _ _ => (1, 2, 3)) =
      (NewImageRenderer 17).getPlaceholderLines :=
  (render_failure_placeholder 17 "" (some fun _ _ => (1, 2, 3)) (Or.inl rfl)).1

/-- C4 counterexample: the placeholder output of `RenderImageLines` does not
have uniform visible width: its bordered content lines are 34 visible
characters wide while its blank padding lines are 31. -/
theorem render_width_counterexample :
    visibleLen (((NewImageRenderer 20).RenderImageLines "" none).getD 0 "") = 34 ∧
    visibleLen (((NewImageRenderer 20).RenderImageLines "" none).getD 19 "") = 31 ∧
    visibleLen (((NewImageRenderer 20).RenderImageLines "" none).getD 0 "") ≠
      visibleLen (((NewImageRenderer 20).RenderImageLines "" none).getD 19 "") := by
  refine ⟨by decide, by decide, by decide⟩

/-- C4 (amended): on a successful render every line of `RenderImageLines`
has identical visible width; placeholder output violates this. -/
theorem render_width_uniform (S : Nat) (px : Nat → Nat → Nat × Nat × Nat)
    (url : String) (hurl : url ≠ "") :
    ∀ l1 ∈ (NewImageRenderer S).RenderImageLines url (some px),
      ∀ l2 ∈ (NewImageRenderer S).RenderImageLines url (some px),
        visibleLen l1 = visibleLen l2 := by
  intro l1 h1 l2 h2
  rw [ImageRenderer.RenderImageLines, if_neg hurl] at h1 h2
  simp only [ImageRenderer.getBlockArtLines, NewImageRenderer, List.mem_map] at h1 h2
  obtain ⟨y1, _, hy1⟩ := h1
  obtain ⟨y2, _, hy2⟩ := h2
  subst hy1; subst hy2
  show (stripAnsi (rowChars S fun x => px x y1)).length =
    (stripAnsi (rowChars S fun x => px x y2)).length
  rw [strip_row, strip_row]

theorem render_width_uniform_witness :
    visibleLen (((NewImageRenderer 16).RenderImageLines "y" (some fun x y => (x, y, 7))).getD 0 "") =
      visibleLen (((NewImageRenderer 16).RenderImageLines "y" (some fun x y => (x, y, 7))).getD 1 "") := by
  have hlen : ((NewImageRenderer 16).RenderImageLines "y" (some fun x y => (x, y, 7))).length = 16 := by
    rw [ImageRenderer.RenderImageLines, if_neg (by decide)]
    simp [ImageRenderer.getBlockArtLines, NewImageRenderer]
  apply render_width_uniform 16 (fun x y => (x, y, 7)) "y" (by decide)
  · rw [List.getD_eq_getElem _ _ (by omega)]
    exact List.getElem_mem (by omega)
  · rw [List.getD_eq_getElem _ _ (by omega)]
    exact List.getElem_mem (by omega)

/-- C8: the effective image grid size is the requested size clamped to
`[15, 35]`; requests below become 15, above become 35, in-range pass
through, and nothing is rejected. -/
theorem image_size_clamped (n : Int) :
    validateImageSize n = max 15 (min 35 n) ∧
    (n < 15 → validateImageSize n = 15) ∧
    (35 < n → validateImageSize n = 35) ∧
    (15 ≤ n → n ≤ 35 → validateImageSize n = n) := by
  simp only [validateImageSize]
  refine ⟨by rw [Int.max_def, Int.min_def]; split_ifs <;> omega,
    ?_, ?_, ?_⟩ <;> intros <;> split_ifs <;> omega

theorem image_size_clamped_witness :
    validateImageSize 7 = 15 ∧ validateImageSize 50 = 35 ∧ validateImageSize 22 = 22 :=
  ⟨(image_size_clamped 7).2.1 (by decide),
   (image_size_clamped 50).2.2.1 (by decide),
   (image_size_clamped 22).2.2.2 (by decide) (by decide)⟩

/-- C9: the code does NOT restore the cursor on the failing type-specific
search path.  The run hides the cursor, but `os.Exit(1)` terminates the
process without running the deferred restore, so no cursor-restore escape
is ever emitted on that path. -/
theorem search_error_skips_cursor_restore :
    TermEvent.out hideCursorSeq ∈
      searchCmdEvents true true false false [] "Search failed: connection refused\n" ∧
    TermEvent.out showCursorSeq ∉
      searchCmdEvents true true false false [] "Search failed: connection refused\n" ∧
    TermEvent.exited 1 ∈
      searchCmdEvents true true false false [] "Search failed: connection refused\n" := by
  refine ⟨by decide, by decide, by decide⟩

/-- C5: the ordinal-date formatter maps the empty string to `"N/A"`, a
parseable `YYYY-MM-DD` string to its ordinal form with the 11-13 → "th" /
last-digit 1,2,3 → "st","nd","rd" suffix rule, a year-only parseable string
to just the year, and any other string to itself unchanged. -/
theorem ordinal_date_spec :
    (formatOrdinalDate "" = "N/A") ∧
    (formatOrdinalDate "2020-01-01" = "1st Jan 2020") ∧
    (formatOrdinalDate "2020-01-11" = "11th Jan 2020") ∧
    (formatOrdinalDate "2020-01-22" = "22nd Jan 2020") ∧
    (formatOrdinalDate "2020" = "2020") ∧
    (∀ s y m d, parseYMD s = some (y, m, d) →
        formatOrdinalDate s =
          natDecStr d ++ ordinalSuffix d ++ " " ++ monthAbbrev m ++ " " ++ natDecStr y) ∧
    (∀ d, 11 ≤ d → d ≤ 13 → ordinalSuffix d = "th") ∧
    (∀ d, ¬(11 ≤ d ∧ d ≤ 13) →
        (d % 10 = 1 → ordinalSuffix d = "st") ∧
        (d % 10 = 2 → ordinalSuffix d = "nd") ∧
        (d % 10 = 3 → ordinalSuffix d = "rd") ∧
        (d % 10 ≠ 1 → d % 10 ≠ 2 → d % 10 ≠ 3 → ordinalSuffix d = "th")) ∧
    (∀ s y, parseYMD s = none → parseYearOnly s = some y → s ≠ "" →
        formatOrdinalDate s = formatYear4 y) ∧
    (∀ s, s ≠ "" → parseYMD s = none → parseYearOnly s = none →
        formatOrdinalDate s = s) := by
  refine ⟨by decide, by decide, by decide, by decide, by decide, ?_, ?_, ?_, ?_, ?_⟩
  · intro s y m d h
    have hs : s ≠ "" := by
      intro he
      subst he
      have hnone : parseYMD "" = none := by decide
      rw [hnone] at h
      exact Option.noConfusion h
    rw [formatOrdinalDate, if_neg hs, h]
  · intro d h11 h13
    rw [ordinalSuffix, if_pos ⟨h11, h13⟩]
  · intro d h
    rw [ordinalSuffix, if_neg h]
    refine ⟨?_, ?_, ?_, ?_⟩
    · intro h1; rw [h1]
    · intro h2; rw [h2]
    · intro h3; rw [h3]
    · intro h1 h2 h3
      rcases hm : d % 10 with _ | _ | _ | _ | k
      · rfl
      · exact absurd hm h1
      · exact absurd hm h2
      · exact absurd hm h3
      · rfl
  · intro s y hymd hyear hs
    rw [formatOrdinalDate, if_neg hs, hymd, hyear]
  · intro s hs hymd hyear
    rw [formatOrdinalDate, if_neg hs, hymd, hyear]

theorem ordinal_date_spec_witness :
    parseYMD "1999-03-21" = some (1999, 3, 21) ∧
    formatOrdinalDate "1999-03-21" = "21st Mar 1999" := by
  refine ⟨by decide, ?_⟩
  have h := ordinal_date_spec.2.2.2.2.2.1 "1999-03-21" 1999 3 21 (by decide)
  rw [h]
  decide

/-- C6: a comma-joined genre string longer than 50 bytes is displayed as its
first 47 bytes followed by the 3-byte `"..."`, exactly 50 bytes in all;
a join of at most 50 bytes is displayed unchanged.  (Go `len` and string
slicing count bytes.) -/
theorem genre_truncation (genres : List (List Nat)) :
    (50 < (goJoin commaSepBytes genres).length →
      genreDisplayBytes genres = (goJoin commaSepBytes genres).take 47 ++ ellipsisBytes ∧
      (genreDisplayBytes genres).length = 50) ∧
    ((goJoin commaSepBytes genres).length ≤ 50 →
      genreDisplayBytes genres = goJoin commaSepBytes genres) := by
  unfold genreDisplayBytes
  constructor
  · intro h
    rw [if_pos h]
    refine ⟨rfl, ?_⟩
    rw [List.length_append, List.length_take]
    simp [ellipsisBytes]
    omega
  · intro h
    rw [if_neg (by omega)]

theorem genre_truncation_witness :
    50 < (goJoin commaSepBytes [List.replicate 30 97, List.replicate 30 98]).length ∧
    (genreDisplayBytes [List.replicate 30 97, List.replicate 30 98]).length = 50 :=
  ⟨by decide, ((genre_truncation [List.replicate 30 97, List.replicate 30 98]).1 (by decide)).2⟩

/-! ## Helper lemmas: locating the Genres line of an info panel -/

theorem isGenresLine_false_of (s : String) (l r : List Char) (hs : s.data = l ++ r)
    (hne : (l.take (min 10 l.length) == genresLineHead.take (min 10 l.length)) = false) :
    isGenresLine s = false := by
  unfold isGenresLine
  apply beq_eq_false_iff_ne.mpr
  intro he
  rw [beq_eq_false_iff_ne] at hne
  apply hne
  calc l.take (min 10 l.length)
      = (s.data).take (min 10 l.length) := by
        rw [hs, List.take_append_of_le_length (Nat.min_le_right _ _)]
    _ = (s.data.take 10).take (min 10 l.length) := by
        rw [List.take_take]
        congr 1
        omega
    _ = genresLineHead.take (min 10 l.length) := by rw [he]

theorem isGenresLine_true_of (s : String) (l r : List Char) (hs : s.data = l ++ r)
    (h10 : 10 ≤ l.length) (hpat : l.take 10 = genresLineHead) :
    isGenresLine s = true := by
  unfold isGenresLine
  rw [hs, List.take_append_of_le_length h10, hpat]
  exact beq_self_eq_true _

theorem formatInfoLine_data (label v c : String) :
    (formatInfoLine label v c).data =
      (ColorBold ++ label ++ ColorReset).data ++
        (List.replicate (infoPadding label) ' ' ++ (c.data ++ (v.data ++ ColorReset.data))) := by
  show (ColorBold ++ label ++ ColorReset).data ++ List.replicate (infoPadding label) ' ' ++
      c.data ++ v.data ++ ColorReset.data = _
  simp [List.append_assoc]

theorem isGenresLine_fmtInfo (label v c : String)
    (h : ((ColorBold ++ label ++ ColorReset).data.take
        (min 10 (ColorBold ++ label ++ ColorReset).data.length) ==
      genresLineHead.take (min 10 (ColorBold ++ label ++ ColorReset).data.length)) = false) :
    isGenresLine (formatInfoLine label v c) = false :=
  isGenresLine_false_of _ _ _ (formatInfoLine_data label v c) h

theorem isGenresLine_genres (v : String) :
    isGenresLine (formatInfoLine "Genres" v ColorRed) = true :=
  isGenresLine_true_of _ (ColorBold ++ "Genres" ++ ColorReset).data _
    (formatInfoLine_data "Genres" v ColorRed) (by decide) (by decide)

theorem isGenresLine_colorWrap_green (s : String) :
    isGenresLine (colorWrap ColorGreen s) = false :=
  isGenresLine_false_of _ ColorGreen.data (s.data ++ ColorReset.data) rfl (by decide)

theorem find?_append_of_none {α : Type} (p : α → Bool) (l₁ l₂ : List α)
    (h : ∀ x ∈ l₁, p x = false) : (l₁ ++ l₂).find? p = l₂.find? p := by
  induction l₁ with
  | nil => rfl
  | cons a t ih =>
    rw [List.cons_append,
      List.find?_cons_of_neg _ (by simp [h a (List.mem_cons_self a t)]),
      ih (fun x hx => h x (List.mem_cons_of_mem a hx))]

/-- The Genres line of the album panel is present exactly when the effective
genre list (after the artist fallback) is nonempty, and then carries the
truncated joined genre value. -/
theorem findGenresLine_album (album : AlbumData) (fetch : String → Option ArtistData) :
    findGenresLine (displayAlbumInfoLines album fetch) =
      if 0 < (albumEffectiveGenres album fetch).length then
        some (formatInfoLine "Genres" (genreValue (albumEffectiveGenres album fetch)) ColorRed)
      else none := by
  unfold displayAlbumInfoLines findGenresLine
  simp only [List.append_assoc, List.cons_append, List.nil_append]
  rw [List.find?_cons_of_neg _ (by simp [isGenresLine_fmtInfo "Name" _ _ (by decide)]),
    List.find?_cons_of_neg _ (by simp [isGenresLine_fmtInfo "Artist" _ _ (by decide)]),
    List.find?_cons_of_neg _ (by simp [isGenresLine_fmtInfo "Type" _ _ (by decide)]),
    List.find?_cons_of_neg _ (by simp [isGenresLine_fmtInfo "Released" _ _ (by decide)]),
    List.find?_cons_of_neg _ (by simp [isGenresLine_fmtInfo "Tracks" _ _ (by decide)]),
    List.find?_cons_of_neg _ (by simp [isGenresLine_fmtInfo "Duration" _ _ (by decide)]),
    List.find?_cons_of_neg _ (by simp [isGenresLine_fmtInfo "Popularity" _ _ (by decide)])]
  by_cases hgen : 0 < (albumEffectiveGenres album fetch).length
  · rw [if_pos hgen, if_pos hgen, List.cons_append,
      List.find?_cons_of_pos _ (isGenresLine_genres _)]
  · rw [if_neg hgen, if_neg hgen, List.nil_append]
    apply List.find?_eq_none.mpr
    intro x hx
    simp only [Bool.not_eq_true]
    rcases List.mem_append.mp hx with h | h
    · split at h
      · simp only [List.mem_singleton] at h
        subst h
        exact isGenresLine_fmtInfo "Label" _ _ (by decide)
      · exact absurd h (List.not_mem_nil x)
    · split at h
      · rcases List.mem_cons.mp h with h | h
        · subst h; decide
        · rcases List.mem_cons.mp h with h | h
          · subst h; decide
          · simp only [List.mem_map] at h
            obtain ⟨t, _, ht⟩ := h
            rw [← ht]
            exact isGenresLine_colorWrap_green _
      · exact absurd h (List.not_mem_nil x)

theorem albumEffectiveGenres_of_fetch (album : AlbumData)
    (fetch : String → Option ArtistData) (hg : album.genres = [])
    (a0 artist : ArtistData) (ha0 : album.artists.head? = some a0)
    (hf : fetch a0.id = some artist) :
    albumEffectiveGenres album fetch = artist.genres := by
  have hlen : 0 < album.artists.length := by
    cases hl : album.artists with
    | nil => rw [hl] at ha0; exact Option.noConfusion ha0
    | cons _ _ => simp [hl]
  unfold albumEffectiveGenres
  rw [if_pos ⟨by rw [hg]; rfl, hlen⟩]
  simp [ha0, hf]

theorem albumEffectiveGenres_of_fetch_none (album : AlbumData)
    (fetch : String → Option ArtistData) (hg : album.genres = [])
    (a0 : ArtistData) (ha0 : album.artists.head? = some a0)
    (hf : fetch a0.id = none) :
    albumEffectiveGenres album fetch = album.genres := by
  have hlen : 0 < album.artists.length := by
    cases hl : album.artists with
    | nil => rw [hl] at ha0; exact Option.noConfusion ha0
    | cons _ _ => simp [hl]
  unfold albumEffectiveGenres
  rw [if_pos ⟨by rw [hg]; rfl, hlen⟩]
  simp [ha0, hf]

/-- C7: for an album with no genres of its own and at least one artist, the
panel's genre line reflects the first artist's genres when the supplemental
artist fetch succeeds (and that artist has genres), and is omitted from the
panel entirely — rather than shown empty or failing — when the fetch
errors. -/
theorem album_genre_fallback (album : AlbumData) (fetch : String → Option ArtistData)
    (hg : album.genres = []) (a0 : ArtistData) (ha0 : album.artists.head? = some a0) :
    (∀ artist, fetch a0.id = some artist →
      (artist.genres ≠ [] →
        findGenresLine (displayAlbumInfoLines album fetch) =
          some (formatInfoLine "Genres" (genreValue artist.genres) ColorRed)) ∧
      (artist.genres = [] →
        findGenresLine (displayAlbumInfoLines album fetch) = none)) ∧
    (fetch a0.id = none →
      findGenresLine (displayAlbumInfoLines album fetch) = none) := by
  constructor
  · intro artist hf
    have he := albumEffectiveGenres_of_fetch album fetch hg a0 artist ha0 hf
    constructor
    · intro hne
      rw [findGenresLine_album, he,
        if_pos (by cases h : artist.genres with
          | nil => exact absurd h hne
          | cons _ _ => simp [h])]
    · intro hnil
      rw [findGenresLine_album, he, hnil]
      rfl
  · intro hf
    have he := albumEffectiveGenres_of_fetch_none album fetch hg a0 ha0 hf
    rw [findGenresLine_album, he, hg]
    rfl

theorem album_genre_fallback_witness :
    findGenresLine (displayAlbumInfoLines
      { name := "A", artists := [{ id := "i", name := "n", spotifyURL := "u", genres := [] }],
        albumType := "album", releaseDate := "2020", totalTracks := 1, popularity := 5,
        genres := [], label := "L", tracks := [{ name := "t", duration := 1000, spotifyURL := "tu" }] }
      (fun _ => none)) = none :=
  (album_genre_fallback
    { name := "A", artists := [{ id := "i", name := "n", spotifyURL := "u", genres := [] }],
      albumType := "album", releaseDate := "2020", totalTracks := 1, popularity := 5,
      genres := [], label := "L", tracks := [{ name := "t", duration := 1000, spotifyURL := "tu" }] }
    (fun _ => none) rfl
    { id := "i", name := "n", spotifyURL := "u", genres := [] } rfl).2 rfl

/-! ## Helper lemmas: the side-by-side composition -/

theorem padInfo_getD (info : List String) (t i : Nat) :
    (padInfoLines info t).getD i "" = info.getD i "" := by
  unfold padInfoLines
  rcases Nat.lt_or_ge i info.length with h | h
  · rw [List.getD_eq_getElem?_getD, List.getElem?_append_left h,
      ← List.getD_eq_getElem?_getD]
  · rw [List.getD_eq_getElem?_getD, List.getElem?_append_right h,
      List.getElem?_replicate, List.getD_eq_getElem?_getD info,
      List.getElem?_eq_none h]
    split <;> rfl

theorem getD_take (l : List String) (t i : Nat) (h : i < t) :
    (l.take t).getD i "" = l.getD i "" := by
  rw [List.getD_eq_getElem?_getD, List.getElem?_take_of_lt h,
    ← List.getD_eq_getElem?_getD]

theorem sideBySideMain_length (imageLines info : List String) (t : Nat) :
    (sideBySideMain imageLines info t).length = t := by
  simp [sideBySideMain]

theorem sideBySideMain_getElem? (imageLines info : List String) (t i : Nat)
    (h : i < t) :
    (sideBySideMain imageLines info t)[i]? =
      some ((if i < imageLines.length then imageLines.getD i "" else spaces46) ++
        gapStr ++ info.getD i "") := by
  unfold sideBySideMain
  rw [List.getElem?_map, List.getElem?_range h]
  rfl

theorem sideBySideTarget_toNat (imageLines infoLines : List String) :
    (sideBySideTarget imageLines infoLines).toNat =
      max imageLines.length infoLines.length - 2 := by
  unfold sideBySideTarget
  omega

theorem main_region (imageLines infoLines links : List String)
    (h2 : 2 ≤ max imageLines.length infoLines.length) :
    ∃ rest, displaySideBySideWithLinks imageLines infoLines links =
      some (sideBySideMain imageLines
          (padInfoLines infoLines (max imageLines.length infoLines.length - 2))
          (max imageLines.length infoLines.length - 2) ++ rest) := by
  have hpos : 0 ≤ sideBySideTarget imageLines infoLines := by
    unfold sideBySideTarget
    omega
  have htr : ∀ s : Int, 0 ≤ s → ∃ tr, goTrailing imageLines s = some tr := by
    intro s hs
    unfold goTrailing
    rw [if_neg (by omega)]
    exact ⟨_, rfl⟩
  by_cases hl : 0 < links.length
  · obtain ⟨tr, htr'⟩ := htr (sideBySideTarget imageLines infoLines + 1) (by omega)
    have hil : ∃ il, linkRowImage imageLines (sideBySideTarget imageLines infoLines) = some il := by
      rcases Classical.em
          (sideBySideTarget imageLines infoLines < (imageLines.length : Int)) with hc | hc
      · rw [linkRowImage, if_pos hc, if_pos hpos]
        exact ⟨_, rfl⟩
      · rw [linkRowImage, if_neg hc]
        exact ⟨_, rfl⟩
    obtain ⟨il, hil'⟩ := hil
    rw [displaySideBySideWithLinks, if_pos hl, hil', htr', sideBySideTarget_toNat]
    exact ⟨_, rfl⟩
  · obtain ⟨tr, htr'⟩ := htr (sideBySideTarget imageLines infoLines) hpos
    rw [displaySideBySideWithLinks, if_neg hl, htr', sideBySideTarget_toNat]
    exact ⟨_, rfl⟩

theorem displaySideBySide_congr_info (imageLines links info info2 : List String)
    (hlen : info2.length = info.length)
    (hget : ∀ i, i < max imageLines.length info.length - 2 →
      info2.getD i "" = info.getD i "") :
    displaySideBySideWithLinks imageLines info2 links =
      displaySideBySideWithLinks imageLines info links := by
  have htar : sideBySideTarget imageLines info2 = sideBySideTarget imageLines info := by
    unfold sideBySideTarget
    rw [hlen]
  have hmain : sideBySideMain imageLines
      (padInfoLines info2 (sideBySideTarget imageLines info).toNat)
      (sideBySideTarget imageLines info).toNat =
    sideBySideMain imageLines
      (padInfoLines info (sideBySideTarget imageLines info).toNat)
      (sideBySideTarget imageLines info).toNat := by
    unfold sideBySideMain
    apply List.map_congr_left
    intro i hi
    rw [List.mem_range, sideBySideTarget_toNat] at hi
    rw [padInfo_getD, padInfo_getD, hget i hi]
  rw [displaySideBySideWithLinks, displaySideBySideWithLinks, htar, hmain]

/-- C2 counterexample: with an info panel longer than the image, the
padding/printing target of the composition is
`max(len(image), len(info)) - 2`, not `len(image) - 2`, and an extra
info-bearing line beyond the claimed region is printed. -/
theorem sidebyside_pad_counterexample :
    sideBySideTarget ["a", "b", "c", "d"] ["1", "2", "3", "4", "5", "6", "7"] = 5 ∧
    ((["a", "b", "c", "d"] : List String).length : Int) - 2 = 2 ∧
    sideBySideTarget ["a", "b", "c", "d"] ["1", "2", "3", "4", "5", "6", "7"] ≠
      ((["a", "b", "c", "d"] : List String).length : Int) - 2 ∧
    displaySideBySideWithLinks ["a", "b", "c", "d"] ["1", "2", "3", "4", "5", "6", "7"] [] =
      some ["a   1", "b   2", "c   3", "d   4", spaces46 ++ gapStr ++ "5"] := by
  refine ⟨by decide, by decide, by decide, by decide⟩

/-- C2 (amended): when the info panel has at most as many lines as the
image (and the image has at least two lines, as every placeholder or
rendered image does), the composition's target is `H - 2` for `H` the
image-line count, the info panel is blank-padded up to `H - 2` lines, and
each line `i < H - 2` prints image line, gap, info line. -/
theorem sidebyside_image_dominant (imageLines infoLines links : List String)
    (hle : infoLines.length ≤ imageLines.length) (h2 : 2 ≤ imageLines.length) :
    PadsToImageHeight imageLines infoLines links := by
  have hM : max imageLines.length infoLines.length = imageLines.length :=
    Nat.max_eq_left hle
  refine ⟨by unfold sideBySideTarget; omega, ?_, ?_⟩
  · unfold padInfoLines
    rw [List.length_append, List.length_replicate]
    omega
  · obtain ⟨rest, hrest⟩ := main_region imageLines infoLines links (by omega)
    refine ⟨_, hrest, ?_⟩
    intro i hi
    rw [List.getElem?_append_left
        (by rw [sideBySideMain_length]; omega),
      sideBySideMain_getElem? _ _ _ i (by omega), hM,
      if_pos (show i < imageLines.length by omega)]

theorem sidebyside_image_dominant_witness :
    PadsToImageHeight ["a", "b", "c"] ["x"] ["L spotify"] :=
  sidebyside_image_dominant ["a", "b", "c"] ["x"] ["L spotify"] (by decide) (by decide)

/-- C10: when the info panel has at least as many lines as the image (and
at least two lines, as every real panel does), exactly the first
`len(info) - 2` info lines are printed, and the output is unchanged if the
last two info lines are replaced: they are silently never displayed. -/
theorem sidebyside_info_dominant (imageLines infoLines links : List String)
    (hle : imageLines.length ≤ infoLines.length) (h2 : 2 ≤ infoLines.length) :
    InfoDominantSpec imageLines infoLines links := by
  have hM : max imageLines.length infoLines.length = infoLines.length :=
    Nat.max_eq_right hle
  obtain ⟨rest, hrest⟩ := main_region imageLines infoLines links (by omega)
  refine ⟨_, hrest, ?_, ?_⟩
  · intro i hi
    rw [List.getElem?_append_left
        (by rw [sideBySideMain_length]; omega),
      sideBySideMain_getElem? _ _ _ i (by omega), padInfo_getD]
  · intro info2 hlen htake
    apply displaySideBySide_congr_info
    · exact hlen
    · intro i hi
      rw [hM] at hi
      have h1 : (info2.take (infoLines.length - 2)).getD i "" = info2.getD i "" :=
        getD_take _ _ _ hi
      have h2' : (infoLines.take (infoLines.length - 2)).getD i "" = infoLines.getD i "" :=
        getD_take _ _ _ hi
      rw [← h1, ← h2', htake]

theorem sidebyside_info_dominant_witness :
    InfoDominantSpec ["a"] ["x", "y", "z"] [] :=
  sidebyside_info_dominant ["a"] ["x", "y", "z"] [] (by decide) (by decide)

end Mufetch
